import Mathlib

/-!
Verification of the Filter & Chart-Configuration Engine of the DataViewer
repository (Vue 3 + Pinia frontend). The definitions below are a shallow
embedding, translated from:
  * src/frontend/src/components/FilterBuilder.vue (filter construction),
  * the ChartConfig component (chart-spec assembly; the file with the
    multi-Y / secondary-axis / per-type options logic),
  * src/frontend/src/stores/dataStore.js (the Pinia store).
JavaScript dynamic values that matter here (a form field holding either a
string or an array of strings) are modelled by an explicit sum type, and the
JavaScript primitives the components rely on (parseFloat, String.split,
String.trim, String.startsWith, String.replace with a string pattern,
array-to-string coercion) are modelled by executable Lean functions with the
same semantics on the values that occur.
-/

namespace DataViewer

/-! ## JavaScript value and primitive models -/

/-- A JavaScript form-field value as it occurs in FilterBuilder.vue:
`filterValue` holds a string, except that `parseInValues` assigns it an
array of strings. -/
inductive JVal where
  | str (s : String)
  | list (l : List String)
deriving DecidableEq

/-- Models the JavaScript strict comparison `x !== ''` for a `JVal`:
false exactly on the empty string (an array is never strictly equal to a
string). -/
def jvalNeEmptyStr : JVal → Bool
  | .str s => s != ""
  | .list _ => true

/-- Models JavaScript truthiness of a `JVal`: a string is truthy iff
non-empty; an array (an object) is always truthy. On the values of `JVal`
this coincides with `jvalNeEmptyStr`. -/
def jvalTruthy : JVal → Bool
  | .str s => s != ""
  | .list _ => true

/-- Models JavaScript string coercion of a `JVal`: an array coerces to its
elements joined with commas. -/
def jvalToString : JVal → String
  | .str s => s
  | .list l => String.intercalate "," l

/-- The whitespace characters `parseFloat` and `String.trim` skip (the
common ones; exotic Unicode space classes do not occur in this code's
inputs). -/
def jsIsWhitespace (c : Char) : Bool :=
  c = ' ' || c = '\t' || c = '\n' || c = '\r'

/-- Decimal value of a digit list (most significant first). -/
def digitsVal (l : List Char) : Nat :=
  l.foldl (fun acc c => 10 * acc + (c.toNat - 48)) 0

/-- Models JavaScript `parseFloat` exactly on decimal inputs: skip leading
whitespace, optional sign, integer digits, optional fraction, optional
exponent; the longest valid numeric PREFIX is converted and the rest of the
string is ignored (so `parseFloat("2024-01-05")` is `2024`); `none` models
`NaN` (no digits consumed). The result is the exact rational the consumed
prefix denotes. -/
def parseFloatChars (l0 : List Char) : Option ℚ :=
  let l1 := l0.dropWhile jsIsWhitespace
  let sign : Int := match l1 with
    | '-' :: _ => -1
    | _ => 1
  let l2 : List Char := match l1 with
    | '-' :: rest => rest
    | '+' :: rest => rest
    | _ => l1
  let intDigits := l2.takeWhile Char.isDigit
  let l3 := l2.dropWhile Char.isDigit
  let fracDigits : List Char := match l3 with
    | '.' :: rest => rest.takeWhile Char.isDigit
    | _ => []
  let l4 : List Char := match l3 with
    | '.' :: rest => rest.dropWhile Char.isDigit
    | _ => l3
  if intDigits.isEmpty && fracDigits.isEmpty then none
  else
    let expVal : Int := match l4 with
      | 'e' :: rest | 'E' :: rest =>
        let esign : Int := match rest with
          | '-' :: _ => -1
          | _ => 1
        let rest2 : List Char := match rest with
          | '-' :: r => r
          | '+' :: r => r
          | _ => rest
        let eDigits := rest2.takeWhile Char.isDigit
        if eDigits.isEmpty then 0 else esign * (digitsVal eDigits : Int)
      | _ => 0
    let mantissa : Int :=
      sign * ((digitsVal intDigits * 10 ^ fracDigits.length + digitsVal fracDigits : Nat) : Int)
    let e10 : Int := expVal - (fracDigits.length : Int)
    some (if 0 ≤ e10 then ((mantissa * 10 ^ e10.toNat : Int) : ℚ)
          else mkRat mantissa (10 ^ (-e10).toNat))

/-- `parseFloat` on a Lean string. -/
def parseFloat (s : String) : Option ℚ :=
  parseFloatChars s.data

/-- Models JavaScript `String.split(sep)` for a one-character separator:
`""` yields `[""]`, `","` yields `["", ""]`. -/
def jsSplitOn (sep : Char) (l : List Char) : List (List Char) :=
  l.foldr (fun c acc =>
    if c = sep then [] :: acc
    else match acc with
      | h :: t => (c :: h) :: t
      | [] => [[c]]) [[]]

/-- Models JavaScript `String.trim()`: strip whitespace from both ends. -/
def jsTrim (l : List Char) : List Char :=
  ((l.dropWhile jsIsWhitespace).reverse.dropWhile jsIsWhitespace).reverse

/-- Models JavaScript `s.startsWith(pat)`. -/
def jsStartsWith (s pat : String) : Bool :=
  pat.data.isPrefixOf s.data

/-- Splits a list at the first occurrence of `pat`: returns the part before
the occurrence and the part after it, or `none` when `pat` does not occur. -/
def firstSplit (pat : List Char) : List Char → Option (List Char × List Char)
  | [] => if pat.isEmpty then some ([], []) else none
  | c :: cs =>
    if pat.isPrefixOf (c :: cs) then some ([], (c :: cs).drop pat.length)
    else match firstSplit pat cs with
      | some (pre, post) => some (c :: pre, post)
      | none => none

/-- Models JavaScript `s.replace(pat, rep)` with a STRING pattern: only the
first occurrence of `pat` is replaced. -/
def jsReplaceFirst (s pat rep : String) : String :=
  match firstSplit pat.data s.data with
  | some (pre, post) => ⟨pre ++ rep.data ++ post⟩
  | none => s

/-! ## FilterBuilder.vue: column typing and the operator table -/

/-- The three semantic column kinds of the engine. -/
inductive SemanticType where
  | numeric
  | datetime
  | categorical
deriving DecidableEq

/-- One entry of the operator table: the wire value and the display label. -/
structure OperatorOption where
  value : String
  label : String
deriving DecidableEq

/-- The fixed operator table `OPERATORS` of FilterBuilder.vue
(lines 142-166). -/
def OPERATORS : SemanticType → List OperatorOption
  | .numeric =>
    [⟨"eq", "equals (=)"⟩,
     ⟨"ne", "not equals (≠)"⟩,
     ⟨"gt", "greater than (>)"⟩,
     ⟨"lt", "less than (<)"⟩,
     ⟨"gte", "greater than or equal (≥)"⟩,
     ⟨"lte", "less than or equal (≤)"⟩,
     ⟨"between", "between"⟩]
  | .categorical =>
    [⟨"eq", "equals"⟩,
     ⟨"ne", "not equals"⟩,
     ⟨"contains", "contains"⟩,
     ⟨"in", "is one of"⟩]
  | .datetime =>
    [⟨"eq", "on date"⟩,
     ⟨"gt", "after"⟩,
     ⟨"lt", "before"⟩,
     ⟨"gte", "on or after"⟩,
     ⟨"lte", "on or before"⟩,
     ⟨"between", "between"⟩]

/-- The declared-type-to-semantic-type mapping inside `columnDataType`
(FilterBuilder.vue lines 171-174): `"numeric"` is numeric, `"datetime"` or
`"datetime_candidate"` is datetime, anything else (including an absent
entry of the data-type map, modelled by `none`) is categorical. -/
def classifyDataType (dataType : Option String) : SemanticType :=
  if dataType = some "numeric" then .numeric
  else if dataType = some "datetime" ∨ dataType = some "datetime_candidate" then .datetime
  else .categorical

/-- The computed `columnDataType` (FilterBuilder.vue lines 169-175): `none`
when no column is selected, otherwise the classification of the selected
column's declared type looked up in the store's data-type map. -/
def columnDataType (selectedColumn : String) (dataTypes : String → Option String) :
    Option SemanticType :=
  if selectedColumn = "" then none
  else some (classifyDataType (dataTypes selectedColumn))

/-- The computed `availableOperators` (FilterBuilder.vue lines 178-181):
empty with no column type, otherwise the fixed table for that type. -/
def availableOperators (ct : Option SemanticType) : List OperatorOption :=
  match ct with
  | none => []
  | some t => OPERATORS t

/-! ## FilterBuilder.vue: builder state, validation and apply gating -/

/-- The reactive form state of FilterBuilder.vue (lines 132-139; the
option-list fields `filterOptions`/`loadingOptions` play no role in the
functions modelled here). -/
structure FilterBuilderState where
  selectedColumn : String
  selectedOperator : String
  filterValue : JVal
  filterValue2 : String
  filterValueText : String
  validationError : String
deriving DecidableEq

/-- The computed `canApply` (FilterBuilder.vue lines 205-217). -/
def canApply (s : FilterBuilderState) : Bool :=
  if s.selectedColumn = "" ∨ s.selectedOperator = "" then false
  else if s.selectedOperator = "between" then
    jvalNeEmptyStr s.filterValue && (s.filterValue2 != "") && (s.validationError == "")
  else if s.selectedOperator = "in" then
    jvalNeEmptyStr s.filterValue || (s.filterValueText != "")
  else jvalNeEmptyStr s.filterValue

/-- The comma-split / trim / discard-empty parse inside `parseInValues`
(FilterBuilder.vue line 266). -/
def parseInList (s : String) : List String :=
  (((jsSplitOn ',' s.data).map (fun cs => String.mk (jsTrim cs))).filter (fun v => v != ""))

/-- `parseInValues` (FilterBuilder.vue lines 264-269): when the raw text is
truthy, store the parsed list in `filterValue`. -/
def parseInValues (s : FilterBuilderState) : FilterBuilderState :=
  if s.filterValueText ≠ "" then { s with filterValue := .list (parseInList s.filterValueText) }
  else s

/-- The `watch([filterValue, filterValue2])` callback (FilterBuilder.vue
lines 272-283): when the operator is `between` and both values are truthy,
parse both with `parseFloat`; when both parse and the second is at most the
first, set the validation error, otherwise clear it. -/
def betweenWatch (s : FilterBuilderState) : FilterBuilderState :=
  if s.selectedOperator = "between" ∧ jvalTruthy s.filterValue = true ∧ s.filterValue2 ≠ "" then
    match parseFloat (jvalToString s.filterValue), parseFloat s.filterValue2 with
    | some val1, some val2 =>
      if val2 ≤ val1 then
        { s with validationError := "End value must be greater than start value" }
      else { s with validationError := "" }
    | _, _ => { s with validationError := "" }
  else s

/-! ## ChartConfig component: state, gating, watchers, spec assembly -/

/-- The reactive state of the ChartConfig component (the refs declared in
its script, lines 644-674 of the component source). -/
structure ChartState where
  chartType : String
  xColumn : String
  yColumn : String
  colorColumn : String
  chartTitle : String
  yColumns : List String
  secondaryYColumns : List String
  barMode : String
  sortOrder : String
  orientation : String
  showTrendline : Bool
  trendlineDegree : Nat
  sizeColumn : String
  showDistributionFit : Bool
  showStatistics : Bool
  showPoints : Bool
  horizontalOrientation : Bool
  heatmapColorscale : String
  showHeatmapAnnotations : Bool
deriving DecidableEq

/-- The computed `canGenerate` (ChartConfig lines 713-720). -/
def canGenerate (s : ChartState) : Bool :=
  if s.chartType = "heatmap" then true
  else if s.chartType = "histogram" then s.xColumn != ""
  else if s.chartType = "line" then
    (s.xColumn != "") && ((s.yColumn != "") || decide (0 < s.yColumns.length))
  else (s.xColumn != "") && (s.yColumn != "")

/-- The `watch(yColumns)` callback (ChartConfig lines 723-725): keep only
the secondary-axis members still present in the new multi-Y selection. -/
def watchYColumns (newVal : List String) (secondary : List String) : List String :=
  secondary.filter (fun c => newVal.contains c)

/-- Assigning a new multi-Y selection: the `v-model` write immediately
followed by the `watch(yColumns)` callback. -/
def setYColumns (s : ChartState) (newVal : List String) : ChartState :=
  { s with yColumns := newVal,
           secondaryYColumns := watchYColumns newVal s.secondaryYColumns }

/-- Toggling one Y2 checkbox. The checkbox for column `c` is rendered only
when `yColumns.includes(c) && yColumns.length >= 2` (template lines
449-456); its `v-model` adds `c` to or removes `c` from
`secondaryYColumns`. -/
def toggleSecondary (s : ChartState) (c : String) : ChartState :=
  if s.yColumns.contains c = true ∧ 2 ≤ s.yColumns.length then
    { s with secondaryYColumns :=
        if s.secondaryYColumns.contains c then s.secondaryYColumns.filter (fun x => x ≠ c)
        else s.secondaryYColumns ++ [c] }
  else s

/-- The `watch(chartType)` callback together with the `v-model` write that
triggers it (ChartConfig lines 727-743): switching the chart type resets
every chart-specific option ref to its default. -/
def watchChartType (s : ChartState) (newType : String) : ChartState :=
  { s with chartType := newType,
           yColumns := [],
           secondaryYColumns := [],
           barMode := "group",
           sortOrder := "",
           orientation := "v",
           showTrendline := false,
           trendlineDegree := 1,
           sizeColumn := "",
           showDistributionFit := false,
           showStatistics := false,
           showPoints := false,
           horizontalOrientation := false,
           heatmapColorscale := "RdBu",
           showHeatmapAnnotations := true }

/-- `applySuggestion` (ChartConfig lines 860-865): overwrite chart type,
axes and title from the suggestion; other refs are untouched. -/
structure ChartSuggestion where
  chart_type : String
  x_column : Option String
  y_column : Option String
  reason : String
  priority : Nat
deriving DecidableEq

/-- The `applySuggestion` handler. `suggestion.x_column || ''` maps a
missing column to the empty string. -/
def applySuggestion (s : ChartState) (sug : ChartSuggestion) : ChartState :=
  { s with chartType := sug.chart_type,
           xColumn := sug.x_column.getD "",
           yColumn := sug.y_column.getD "",
           chartTitle := sug.reason }

/-- The `options` bag of the assembled chart config; `none` models an
absent key. -/
structure ChartOptionsOut where
  color_numeric : Option String := none
  y_columns : Option (List String) := none
  secondary_y_columns : Option (List String) := none
  bar_mode : Option String := none
  sort_order : Option String := none
  orientation : Option String := none
  show_trendline : Option Bool := none
  trendline_degree : Option Nat := none
  value_columns : Option (List String) := none
  show_distribution_fit : Option Bool := none
  show_statistics : Option Bool := none
  show_points : Option Bool := none
  horizontal : Option Bool := none
  colorscale : Option String := none
  show_annotations : Option Bool := none
deriving DecidableEq

/-- The config object `generateChart` sends to the store (`ChartSpec`);
`none` models a `null` value or an absent key. -/
structure ChartConfigOut where
  chart_type : String
  x_column : Option String := none
  y_column : Option String := none
  color_column : Option String := none
  size_column : Option String := none
  title : Option String := none
  options : ChartOptionsOut := {}
deriving DecidableEq

/-- `x || null` on a string ref. -/
def strOrNull (x : String) : Option String :=
  if x = "" then none else some x

/-- The base config literal at the top of `generateChart` (ChartConfig
lines 746-753). -/
def baseConfig (s : ChartState) : ChartConfigOut :=
  { chart_type := s.chartType,
    x_column := strOrNull s.xColumn,
    y_column := strOrNull s.yColumn,
    color_column := none,
    title := strOrNull s.chartTitle,
    options := {} }

/-- Color handling in `generateChart` (lines 755-762): a truthy color
selection starting with the reserved `"numeric:"` prefix goes to
`options.color_numeric` with the prefix stripped by
`replace('numeric:', '')`; otherwise it goes to `color_column`. The check
does not depend on the chart type. -/
def applyColorHandling (s : ChartState) (c : ChartConfigOut) : ChartConfigOut :=
  if s.colorColumn ≠ "" then
    if jsStartsWith s.colorColumn "numeric:" then
      { c with options :=
          { c.options with color_numeric := some (jsReplaceFirst s.colorColumn "numeric:" "") } }
    else { c with color_column := some s.colorColumn }
  else c

/-- Line multi-Y handling in `generateChart` (lines 764-771): with a
non-empty multi-Y selection, `options.y_columns` is the selection,
`y_column` becomes its first element, and `options.secondary_y_columns` is
added only when the secondary set is non-empty. -/
def applyLineMultiY (s : ChartState) (c : ChartConfigOut) : ChartConfigOut :=
  if s.chartType = "line" ∧ s.yColumns ≠ [] then
    let c1 := { c with options := { c.options with y_columns := some s.yColumns },
                       y_column := some (s.yColumns.headD "") }
    if s.secondaryYColumns ≠ [] then
      { c1 with options := { c1.options with secondary_y_columns := some s.secondaryYColumns } }
    else c1
  else c

/-- Bar options in `generateChart` (lines 773-784): each key is written
only when it differs from its default. -/
def applyBarOptions (s : ChartState) (c : ChartConfigOut) : ChartConfigOut :=
  if s.chartType = "bar" then
    { c with options :=
        { c.options with
            bar_mode := if s.barMode ≠ "group" then some s.barMode else c.options.bar_mode,
            sort_order := if s.sortOrder ≠ "" then some s.sortOrder else c.options.sort_order,
            orientation :=
              if s.orientation ≠ "v" then some s.orientation else c.options.orientation } }
  else c

/-- Scatter options in `generateChart` (lines 786-795): a truthy size
column becomes the top-level `size_column`; an enabled trendline writes
`show_trendline` and `trendline_degree`. -/
def applyScatterOptions (s : ChartState) (c : ChartConfigOut) : ChartConfigOut :=
  if s.chartType = "scatter" then
    let c1 := if s.sizeColumn ≠ "" then { c with size_column := some s.sizeColumn } else c
    if s.showTrendline then
      { c1 with options := { c1.options with show_trendline := some true,
                                             trendline_degree := some s.trendlineDegree } }
    else c1
  else c

/-- Time-series handling in `generateChart` (lines 797-803): spread-merge
`value_columns` into the options with the single y column. -/
def applyTimeSeries (s : ChartState) (c : ChartConfigOut) : ChartConfigOut :=
  if s.chartType = "time_series" ∧ s.yColumn ≠ "" then
    { c with options := { c.options with value_columns := some [s.yColumn] } }
  else c

/-- Histogram options in `generateChart` (lines 805-813). -/
def applyHistogramOptions (s : ChartState) (c : ChartConfigOut) : ChartConfigOut :=
  if s.chartType = "histogram" then
    let c1 := if s.showDistributionFit then
        { c with options := { c.options with show_distribution_fit := some true } }
      else c
    if s.showStatistics then
      { c1 with options := { c1.options with show_statistics := some true } }
    else c1
  else c

/-- Box/violin options in `generateChart` (lines 815-823). -/
def applyBoxViolinOptions (s : ChartState) (c : ChartConfigOut) : ChartConfigOut :=
  if s.chartType = "box" ∨ s.chartType = "violin" then
    let c1 := if s.showPoints then
        { c with options := { c.options with show_points := some true } }
      else c
    if s.horizontalOrientation then
      { c1 with options := { c1.options with horizontal := some true } }
    else c1
  else c

/-- Heatmap options in `generateChart` (lines 825-833): the colorscale is
written only when it differs from the default `RdBu`; `show_annotations`
only when annotations are turned off. -/
def applyHeatmapOptions (s : ChartState) (c : ChartConfigOut) : ChartConfigOut :=
  if s.chartType = "heatmap" then
    let c1 := if s.heatmapColorscale ≠ "RdBu" then
        { c with options := { c.options with colorscale := some s.heatmapColorscale } }
      else c
    if s.showHeatmapAnnotations = false then
      { c1 with options := { c1.options with show_annotations := some false } }
    else c1
  else c

/-- The whole of `generateChart`'s config assembly (ChartConfig lines
745-835), applying the source's blocks in source order. -/
def generateChartConfig (s : ChartState) : ChartConfigOut :=
  applyHeatmapOptions s
    (applyBoxViolinOptions s
      (applyHistogramOptions s
        (applyTimeSeries s
          (applyScatterOptions s
            (applyBarOptions s
              (applyLineMultiY s
                (applyColorHandling s (baseConfig s))))))))

/-! ## dataStore.js: the Pinia store slice the claims use -/

/-- A filter predicate as emitted by `applyFilter` and held in
`activeFilters`. -/
structure FilterPredicate where
  column : String
  operator : String
  value : JVal
  value2 : Option String := none
deriving DecidableEq

/-- One entry of the store's `charts` array. -/
structure ChartEntry where
  chart_id : Nat
  chart_type : String
  figure : String
  config : ChartConfigOut
deriving DecidableEq

/-- The response of the `generateChart` collaborator call. -/
structure ChartResponse where
  chart_id : Nat
  chart_type : String
  figure : String
deriving DecidableEq

/-- The response of the `queryData` collaborator call. -/
structure QueryResponse where
  data : List (List String)
  total_rows : Nat
deriving DecidableEq

/-- The slice of the store state (dataStore.js lines 8-30) the claims are
about. `hasActiveSource` models `activeSource !== null`. -/
structure StoreState where
  hasActiveSource : Bool
  activeFilters : List FilterPredicate
  charts : List ChartEntry
  error : Option String
  loading : Bool
  currentData : List (List String)
  totalRows : Nat
deriving DecidableEq

/-- The store action `generateChart` (dataStore.js lines 192-223) with the
collaborator call's outcome passed in explicitly. Without an active source
it throws before touching state. On a failure the catch block records the
single error message and the finally block clears `loading`; the chart is
pushed only on success. -/
def generateChartStore (ss : StoreState) (cfg : ChartConfigOut)
    (result : Except String ChartResponse) : StoreState :=
  if ss.hasActiveSource = false then ss
  else match result with
    | .error msg => { ss with loading := false, error := some msg }
    | .ok r => { ss with loading := false, error := none,
                         charts := ss.charts ++ [⟨r.chart_id, r.chart_type, r.figure, cfg⟩] }

/-- The store action `queryData` (dataStore.js lines 135-159) with the
collaborator call's outcome passed in explicitly. -/
def queryDataStore (ss : StoreState) (result : Except String QueryResponse) : StoreState :=
  if ss.hasActiveSource = false then ss
  else match result with
    | .error msg => { ss with loading := false, error := some msg }
    | .ok r => { ss with loading := false, error := none,
                         currentData := r.data, totalRows := r.total_rows }

/-- The component-level `generateChart` (ChartConfig lines 745-835): it
reads the chart state to build the config and calls the store action; it
writes none of the component refs, so the chart state comes back
unchanged. -/
def componentGenerateChart (cs : ChartState) (ss : StoreState)
    (result : Except String ChartResponse) : ChartState × StoreState :=
  (cs, generateChartStore ss (generateChartConfig cs) result)

/-! ## Helper lemmas -/

/-- A list is a `isPrefixOf`-prefix of itself followed by anything. -/
theorem isPrefixOf_append_self {α : Type} [BEq α] [LawfulBEq α] (l₁ l₂ : List α) :
    l₁.isPrefixOf (l₁ ++ l₂) = true := by
  induction l₁ with
  | nil => simp [List.isPrefixOf]
  | cons a as ih => simp [List.isPrefixOf, ih]

/-- When `pat` is a non-empty prefix of `l`, the first occurrence found by
`firstSplit` is at the front. -/
theorem firstSplit_of_isPrefixOf (pat l : List Char) (hne : pat ≠ [])
    (h : pat.isPrefixOf l = true) :
    firstSplit pat l = some ([], l.drop pat.length) := by
  cases l with
  | nil =>
    cases pat with
    | nil => exact absurd rfl hne
    | cons a as => simp [List.isPrefixOf] at h
  | cons c cs => simp [firstSplit, h]

/-- Stripping the reserved prefix: `replace('numeric:', '')` on a string of
the form `"numeric:" ++ r` yields `r`. -/
theorem jsReplaceFirst_strip (r : String) :
    jsReplaceFirst ("numeric:" ++ r) "numeric:" "" = r := by
  have hdata : ("numeric:" ++ r).data = "numeric:".data ++ r.data := rfl
  have hpre : ("numeric:".data).isPrefixOf (("numeric:" ++ r).data) = true := by
    rw [hdata]; exact isPrefixOf_append_self _ _
  unfold jsReplaceFirst
  rw [firstSplit_of_isPrefixOf _ _ (by decide) hpre, hdata, List.drop_left]
  rfl

/-- A string of the form `"numeric:" ++ r` starts with the reserved
prefix. -/
theorem jsStartsWith_numeric (r : String) :
    jsStartsWith ("numeric:" ++ r) "numeric:" = true := by
  have hdata : ("numeric:" ++ r).data = "numeric:".data ++ r.data := rfl
  unfold jsStartsWith
  rw [hdata]; exact isPrefixOf_append_self _ _

/-- A string of the form `"numeric:" ++ r` is non-empty. -/
theorem numericPrefix_append_ne_empty (r : String) : ("numeric:" ++ r) ≠ "" := by
  intro h
  have h2 : ("numeric:" ++ r).data = [] := by rw [h]
  have h3 : "numeric:".data ++ r.data = [] := h2
  exact absurd (List.append_eq_nil.mp h3).1 (by decide)

/-! ## The claims -/

/-- C1: for every column, the operators offered are exactly the fixed table
keyed by the column's semantic type — Numeric: eq, ne, gt, lt, gte, lte,
between; Categorical: eq, ne, contains, in; Datetime: eq, gt, lt, gte, lte,
between — in that order and with no duplicates; the semantic type is
computed totally from the declared type (`"numeric"` to numeric,
`"datetime"` or `"datetime_candidate"` to datetime, anything else to
categorical). -/
theorem operator_table_per_semantic_type :
    (∀ dt : String, classifyDataType (some dt) =
      if dt = "numeric" then SemanticType.numeric
      else if dt = "datetime" ∨ dt = "datetime_candidate" then SemanticType.datetime
      else SemanticType.categorical)
    ∧ (availableOperators (some .numeric)).map OperatorOption.value
        = ["eq", "ne", "gt", "lt", "gte", "lte", "between"]
    ∧ (availableOperators (some .categorical)).map OperatorOption.value
        = ["eq", "ne", "contains", "in"]
    ∧ (availableOperators (some .datetime)).map OperatorOption.value
        = ["eq", "gt", "lt", "gte", "lte", "between"]
    ∧ ((availableOperators (some .numeric)).map OperatorOption.value).Nodup
    ∧ ((availableOperators (some .categorical)).map OperatorOption.value).Nodup
    ∧ ((availableOperators (some .datetime)).map OperatorOption.value).Nodup := by
  refine ⟨?_, by decide, by decide, by decide, by decide, by decide, by decide⟩
  intro dt
  by_cases h1 : dt = "numeric"
  · simp [classifyDataType, h1]
  · by_cases h2 : dt = "datetime"
    · simp [classifyDataType, h1, h2]
    · by_cases h3 : dt = "datetime_candidate"
      · simp [classifyDataType, h1, h2, h3]
      · simp [classifyDataType, h1, h2, h3]

/-- C2: for the between operator with both inputs non-empty and both
parsing as numbers, `value2 <= value` sets the validation error
"End value must be greater than start value" and makes `canApply` false,
while `value2 > value` leaves no error and makes `canApply` true. -/
theorem between_numeric_validation
    (col v1 v2 t e : String) (q1 q2 : ℚ)
    (hcol : col ≠ "") (hv1 : v1 ≠ "") (hv2 : v2 ≠ "")
    (hp1 : parseFloat v1 = some q1) (hp2 : parseFloat v2 = some q2) :
    (q2 ≤ q1 →
      (betweenWatch ⟨col, "between", .str v1, v2, t, e⟩).validationError
          = "End value must be greater than start value"
      ∧ canApply (betweenWatch ⟨col, "between", .str v1, v2, t, e⟩) = false)
    ∧ (q1 < q2 →
      (betweenWatch ⟨col, "between", .str v1, v2, t, e⟩).validationError = ""
      ∧ canApply (betweenWatch ⟨col, "between", .str v1, v2, t, e⟩) = true) := by
  have hw : betweenWatch ⟨col, "between", .str v1, v2, t, e⟩ =
      if q2 ≤ q1 then
        ⟨col, "between", .str v1, v2, t, "End value must be greater than start value"⟩
      else ⟨col, "between", .str v1, v2, t, ""⟩ := by
    unfold betweenWatch
    rw [if_pos ⟨rfl, by simp [jvalTruthy, hv1], hv2⟩]
    dsimp only [jvalToString]
    rw [hp1, hp2]
  constructor
  · intro hle
    rw [hw, if_pos hle]
    exact ⟨rfl, by simp [canApply, hcol, jvalNeEmptyStr]⟩
  · intro hlt
    rw [hw, if_neg (not_le.mpr hlt)]
    exact ⟨rfl, by simp [canApply, hcol, jvalNeEmptyStr, hv1, hv2]⟩

/-- Witness for C2 on the spec's own scenario: column `age`, operator
`between`, values `10` and `5` give the error and block apply; values `10`
and `50` give no error and allow apply. -/
theorem between_numeric_validation_witness :
    ((betweenWatch ⟨"age", "between", .str "10", "5", "", ""⟩).validationError
        = "End value must be greater than start value"
      ∧ canApply (betweenWatch ⟨"age", "between", .str "10", "5", "", ""⟩) = false)
    ∧ ((betweenWatch ⟨"age", "between", .str "10", "50", "", ""⟩).validationError = ""
      ∧ canApply (betweenWatch ⟨"age", "between", .str "10", "50", "", ""⟩) = true) :=
  ⟨(between_numeric_validation "age" "10" "5" "" "" 10 5 (by decide) (by decide)
      (by decide) (by decide) (by decide)).1 (by norm_num),
   (between_numeric_validation "age" "10" "50" "" "" 10 50 (by decide) (by decide)
      (by decide) (by decide) (by decide)).2 (by norm_num)⟩

/-- C3 evidence (code bug): JavaScript `parseFloat` converts the numeric
PREFIX of an ISO date string, so `"2024-01-05"` parses as `2024` rather
than `NaN`. For the between operator on the valid ascending date range
`2024-01-05 .. 2024-06-01`, both values parse to the same number `2024`,
the guard `!isNaN(val1) && !isNaN(val2)` does not fire, the inequality is
enforced, the blocking error is set and apply is disabled — although the
spec requires that no inequality be enforced for date strings (delegation
to the backend, which the surrounding `isNaN` guard clearly intends). -/
theorem between_date_strings_bug :
    parseFloat "2024-01-05" = some 2024
    ∧ parseFloat "2024-06-01" = some 2024
    ∧ (betweenWatch
        ⟨"order_date", "between", .str "2024-01-05", "2024-06-01", "", ""⟩).validationError
        = "End value must be greater than start value"
    ∧ canApply (betweenWatch
        ⟨"order_date", "between", .str "2024-01-05", "2024-06-01", "", ""⟩) = false := by
  decide

/-- C4 counterexample: with column `city`, operator `in` and raw text `","`
the comma-split / trim / discard-empty parse produces NO values, yet
`canApply` is true (both before the blur that runs `parseInValues` and
after it, where the stored value is the empty list) — refuting the claimed
equivalence of `canApply` with "the parse has produced at least one
value". -/
theorem canApply_in_counterexample :
    canApply ⟨"city", "in", .str "", "", ",", ""⟩ = true
    ∧ parseInList "," = []
    ∧ (parseInValues ⟨"city", "in", .str "", "", ",", ""⟩).filterValue = .list []
    ∧ canApply (parseInValues ⟨"city", "in", .str "", "", ",", ""⟩) = true := by
  decide

/-- C4 (amended): `canApply` is true iff a column and an operator are
chosen and: for between, the value is not the empty string, the second
value is non-empty and no validation error is present; for in, the stored
value is not the empty string (in particular any stored list qualifies) OR
the raw comma-separated text is non-empty — the parse need not have
produced any values; for every other operator, the single value is not the
empty string. -/
theorem canApply_characterization (s : FilterBuilderState) :
    canApply s = true ↔
      (s.selectedColumn ≠ "" ∧ s.selectedOperator ≠ "" ∧
        ((s.selectedOperator = "between" ∧ jvalNeEmptyStr s.filterValue = true
            ∧ s.filterValue2 ≠ "" ∧ s.validationError = "")
         ∨ (s.selectedOperator ≠ "between" ∧ s.selectedOperator = "in"
            ∧ (jvalNeEmptyStr s.filterValue = true ∨ s.filterValueText ≠ ""))
         ∨ (s.selectedOperator ≠ "between" ∧ s.selectedOperator ≠ "in"
            ∧ jvalNeEmptyStr s.filterValue = true))) := by
  unfold canApply
  split_ifs with h1 h2 h3 <;>
    simp_all [not_or, Bool.and_eq_true, Bool.or_eq_true, bne_iff_ne, beq_iff_eq] <;>
    tauto

/-! ## Chart-side helper lemmas and concrete states -/

/-- A fresh ChartConfig component state: every ref at its initial value
(ChartConfig lines 644-674). -/
def blankChart : ChartState :=
  { chartType := "line", xColumn := "", yColumn := "", colorColumn := "", chartTitle := "",
    yColumns := [], secondaryYColumns := [], barMode := "group", sortOrder := "",
    orientation := "v", showTrendline := false, trendlineDegree := 1, sizeColumn := "",
    showDistributionFit := false, showStatistics := false, showPoints := false,
    horizontalOrientation := false, heatmapColorscale := "RdBu",
    showHeatmapAnnotations := true }

/-- The spec scenario state for C6: a line chart with multi-Y
`["a","b","c"]` and secondary axis `["b"]`. -/
def lineDraft : ChartState :=
  { blankChart with xColumn := "t", yColumns := ["a", "b", "c"], secondaryYColumns := ["b"] }

/-- A scatter state whose color selection is the numeric column `price`. -/
def scatterNumericDraft : ChartState :=
  { blankChart with chartType := "scatter", xColumn := "x", yColumn := "y",
                    colorColumn := "numeric:price" }

/-- A bar state carrying a numeric color selection left over from scatter
mode. -/
def barNumericDraft : ChartState :=
  { blankChart with chartType := "bar", xColumn := "x", yColumn := "y",
                    colorColumn := "numeric:score" }

/-- The line multi-Y block leaves the color fields alone. -/
theorem color_after_lineMultiY (s : ChartState) (c : ChartConfigOut) :
    (applyLineMultiY s c).color_column = c.color_column
    ∧ (applyLineMultiY s c).options.color_numeric = c.options.color_numeric := by
  unfold applyLineMultiY
  split_ifs <;> exact ⟨rfl, rfl⟩

/-- The bar block leaves the color fields alone. -/
theorem color_after_barOptions (s : ChartState) (c : ChartConfigOut) :
    (applyBarOptions s c).color_column = c.color_column
    ∧ (applyBarOptions s c).options.color_numeric = c.options.color_numeric := by
  unfold applyBarOptions
  split_ifs <;> exact ⟨rfl, rfl⟩

/-- The scatter block leaves the color fields alone. -/
theorem color_after_scatterOptions (s : ChartState) (c : ChartConfigOut) :
    (applyScatterOptions s c).color_column = c.color_column
    ∧ (applyScatterOptions s c).options.color_numeric = c.options.color_numeric := by
  unfold applyScatterOptions
  split_ifs <;> exact ⟨rfl, rfl⟩

/-- The time-series block leaves the color fields alone. -/
theorem color_after_timeSeries (s : ChartState) (c : ChartConfigOut) :
    (applyTimeSeries s c).color_column = c.color_column
    ∧ (applyTimeSeries s c).options.color_numeric = c.options.color_numeric := by
  unfold applyTimeSeries
  split_ifs <;> exact ⟨rfl, rfl⟩

/-- The histogram block leaves the color fields alone. -/
theorem color_after_histogramOptions (s : ChartState) (c : ChartConfigOut) :
    (applyHistogramOptions s c).color_column = c.color_column
    ∧ (applyHistogramOptions s c).options.color_numeric = c.options.color_numeric := by
  unfold applyHistogramOptions
  split_ifs <;> exact ⟨rfl, rfl⟩

/-- The box/violin block leaves the color fields alone. -/
theorem color_after_boxViolinOptions (s : ChartState) (c : ChartConfigOut) :
    (applyBoxViolinOptions s c).color_column = c.color_column
    ∧ (applyBoxViolinOptions s c).options.color_numeric = c.options.color_numeric := by
  unfold applyBoxViolinOptions
  split_ifs <;> exact ⟨rfl, rfl⟩

/-- The heatmap block leaves the color fields alone. -/
theorem color_after_heatmapOptions (s : ChartState) (c : ChartConfigOut) :
    (applyHeatmapOptions s c).color_column = c.color_column
    ∧ (applyHeatmapOptions s c).options.color_numeric = c.options.color_numeric := by
  unfold applyHeatmapOptions
  split_ifs <;> exact ⟨rfl, rfl⟩

/-- In the assembled config, both color fields are decided by the color
handling block alone. -/
theorem generateChartConfig_color (s : ChartState) :
    (generateChartConfig s).color_column = (applyColorHandling s (baseConfig s)).color_column
    ∧ (generateChartConfig s).options.color_numeric
        = (applyColorHandling s (baseConfig s)).options.color_numeric := by
  unfold generateChartConfig
  constructor
  · rw [(color_after_heatmapOptions s _).1, (color_after_boxViolinOptions s _).1,
        (color_after_histogramOptions s _).1, (color_after_timeSeries s _).1,
        (color_after_scatterOptions s _).1, (color_after_barOptions s _).1,
        (color_after_lineMultiY s _).1]
  · rw [(color_after_heatmapOptions s _).2, (color_after_boxViolinOptions s _).2,
        (color_after_histogramOptions s _).2, (color_after_timeSeries s _).2,
        (color_after_scatterOptions s _).2, (color_after_barOptions s _).2,
        (color_after_lineMultiY s _).2]

/-- A truthy categorical (non-prefixed) color selection goes to
`color_column`. -/
theorem colorHandling_categorical (s : ChartState) (c : ChartConfigOut)
    (h1 : s.colorColumn ≠ "") (h2 : jsStartsWith s.colorColumn "numeric:" = false) :
    applyColorHandling s c = { c with color_column := some s.colorColumn } := by
  unfold applyColorHandling
  rw [if_pos h1, if_neg (by simp [h2])]

/-- A color selection carrying the reserved prefix goes to
`options.color_numeric` with the prefix stripped. -/
theorem colorHandling_numeric (s : ChartState) (c : ChartConfigOut) (r : String)
    (h : s.colorColumn = "numeric:" ++ r) :
    applyColorHandling s c
      = { c with options := { c.options with color_numeric := some r } } := by
  unfold applyColorHandling
  rw [if_pos (h ▸ numericPrefix_append_ne_empty r),
      if_pos (show jsStartsWith s.colorColumn "numeric:" = true by
        rw [h]; exact jsStartsWith_numeric r)]
  rw [h, jsReplaceFirst_strip]

/-- C5: switching `chartType` resets every chart-specific option ref to its
documented default regardless of prior state: multi-Y and secondary-axis
selections empty, bar mode `group`, sort order none (the empty string is
the `None` option), vertical orientation (`v`), trendline off with degree
1, no size column, distribution fit and statistics off, points and
horizontal off, colorscale `RdBu`, annotations on. -/
theorem chartType_switch_resets_options (s : ChartState) (t : String) :
    (watchChartType s t).yColumns = []
    ∧ (watchChartType s t).secondaryYColumns = []
    ∧ (watchChartType s t).barMode = "group"
    ∧ (watchChartType s t).sortOrder = ""
    ∧ (watchChartType s t).orientation = "v"
    ∧ (watchChartType s t).showTrendline = false
    ∧ (watchChartType s t).trendlineDegree = 1
    ∧ (watchChartType s t).sizeColumn = ""
    ∧ (watchChartType s t).showDistributionFit = false
    ∧ (watchChartType s t).showStatistics = false
    ∧ (watchChartType s t).showPoints = false
    ∧ (watchChartType s t).horizontalOrientation = false
    ∧ (watchChartType s t).heatmapColorscale = "RdBu"
    ∧ (watchChartType s t).showHeatmapAnnotations = true :=
  ⟨rfl, rfl, rfl, rfl, rfl, rfl, rfl, rfl, rfl, rfl, rfl, rfl, rfl, rfl⟩

/-- C6: after any multi-Y mutation (the `watch(yColumns)` filter) and after
any Y2 toggle (offered only for members of `yColumns`), `secondaryYColumns`
is a subset of `yColumns`; and in the spec scenario — line chart, yColumns
`["a","b","c"]`, secondary `["b"]` — removing `"b"` from yColumns removes
it from the secondary set, and the assembled spec has
`options.y_columns = ["a","c"]`, no `secondary_y_columns` key, and
`y_column = "a"`. -/
theorem secondaryY_subset_and_line_scenario :
    (∀ (s : ChartState) (newVal : List String),
        (setYColumns s newVal).secondaryYColumns ⊆ (setYColumns s newVal).yColumns)
    ∧ (∀ (s : ChartState) (c : String), s.secondaryYColumns ⊆ s.yColumns →
        (toggleSecondary s c).secondaryYColumns ⊆ (toggleSecondary s c).yColumns)
    ∧ (setYColumns lineDraft ["a", "c"]).secondaryYColumns = []
    ∧ (generateChartConfig (setYColumns lineDraft ["a", "c"])).options.y_columns
        = some ["a", "c"]
    ∧ (generateChartConfig (setYColumns lineDraft ["a", "c"])).options.secondary_y_columns
        = none
    ∧ (generateChartConfig (setYColumns lineDraft ["a", "c"])).y_column = some "a" := by
  refine ⟨?_, ?_, by decide, by decide, by decide, by decide⟩
  · intro s newVal x hx
    have h2 := (List.mem_filter.mp hx).2
    exact List.elem_iff.mp h2
  · intro s c hsub
    unfold toggleSecondary
    split_ifs with hg hc
    · intro x hx
      exact hsub (List.mem_filter.mp hx).1
    · intro x hx
      rcases List.mem_append.mp hx with hxs | hxc
      · exact hsub hxs
      · rw [List.mem_singleton.mp hxc]
        exact List.elem_iff.mp hg.1
    · exact hsub

/-- Witness for C6's toggle clause at a concrete state: toggling `"a"` on
the scenario state keeps the secondary set inside `yColumns`. -/
theorem secondaryY_subset_witness :
    (toggleSecondary lineDraft "a").secondaryYColumns
      ⊆ (toggleSecondary lineDraft "a").yColumns :=
  secondaryY_subset_and_line_scenario.2.1 lineDraft "a" (by simp [lineDraft, blankChart])

/-- C7: `canGenerate` is true exactly when — heatmap: always; histogram: an
x column is chosen; line: an x column is chosen and a single y column is
chosen or the multi-Y set is non-empty; every other chart type: both an x
and a y column are chosen. -/
theorem canGenerate_characterization (s : ChartState) :
    canGenerate s = true ↔
      (s.chartType = "heatmap"
       ∨ (s.chartType = "histogram" ∧ s.xColumn ≠ "")
       ∨ (s.chartType = "line" ∧ s.xColumn ≠ "" ∧ (s.yColumn ≠ "" ∨ s.yColumns ≠ []))
       ∨ (s.chartType ≠ "heatmap" ∧ s.chartType ≠ "histogram" ∧ s.chartType ≠ "line"
          ∧ s.xColumn ≠ "" ∧ s.yColumn ≠ "")) := by
  unfold canGenerate
  split_ifs with h1 h2 h3 <;> simp_all [List.length_pos]

/-- C8: for a scatter chart, a categorical color selection is emitted as
the spec's `color_column`, a `"numeric:"`-prefixed selection yields
`color_column = null` with `options.color_numeric` the remainder of the
string, and no assembled spec ever carries both. -/
theorem scatter_color_routing (s : ChartState) (_hscatter : s.chartType = "scatter") :
    (s.colorColumn ≠ "" → jsStartsWith s.colorColumn "numeric:" = false →
        (generateChartConfig s).color_column = some s.colorColumn
        ∧ (generateChartConfig s).options.color_numeric = none)
    ∧ (∀ r : String, s.colorColumn = "numeric:" ++ r →
        (generateChartConfig s).color_column = none
        ∧ (generateChartConfig s).options.color_numeric = some r)
    ∧ ¬ ((generateChartConfig s).color_column ≠ none
        ∧ (generateChartConfig s).options.color_numeric ≠ none) := by
  have hc := generateChartConfig_color s
  refine ⟨?_, ?_, ?_⟩
  · intro h1 h2
    rw [colorHandling_categorical s (baseConfig s) h1 h2] at hc
    exact ⟨hc.1.trans rfl, hc.2.trans rfl⟩
  · intro r hr
    rw [colorHandling_numeric s (baseConfig s) r hr] at hc
    exact ⟨hc.1.trans rfl, hc.2.trans rfl⟩
  · rintro ⟨ha, hb⟩
    by_cases h1 : s.colorColumn = ""
    · apply ha
      rw [hc.1]
      unfold applyColorHandling
      rw [if_neg (by simp [h1])]
      rfl
    · by_cases h2 : jsStartsWith s.colorColumn "numeric:" = true
      · apply ha
        rw [hc.1]
        unfold applyColorHandling
        rw [if_pos h1, if_pos h2]
        rfl
      · apply hb
        rw [hc.2]
        unfold applyColorHandling
        rw [if_pos h1, if_neg h2]
        rfl

/-- Witness for C8: the scatter state with color selection
`numeric:price` assembles to `color_column = null` and
`options.color_numeric = "price"`. -/
theorem scatter_color_routing_witness :
    (generateChartConfig scatterNumericDraft).color_column = none
    ∧ (generateChartConfig scatterNumericDraft).options.color_numeric = some "price" :=
  (scatter_color_routing scatterNumericDraft rfl).2.1 "price" (by decide)

/-- C9: when a query or chart-generation collaborator call fails, the store
records the single error message of that operation, the active filter set
and the charts list are unchanged (a failed `generateChart` pushes no
chart, a failed `queryData` keeps the current rows), and the ChartConfig
component state the spec was built from is untouched, so retrying rebuilds
the same spec. -/
theorem collaborator_error_preserves_state
    (cs : ChartState) (ss : StoreState) (msg : String)
    (h : ss.hasActiveSource = true) :
    (componentGenerateChart cs ss (Except.error msg)).1 = cs
    ∧ (componentGenerateChart cs ss (Except.error msg)).2.error = some msg
    ∧ (componentGenerateChart cs ss (Except.error msg)).2.charts = ss.charts
    ∧ (componentGenerateChart cs ss (Except.error msg)).2.activeFilters = ss.activeFilters
    ∧ (queryDataStore ss (Except.error msg)).error = some msg
    ∧ (queryDataStore ss (Except.error msg)).activeFilters = ss.activeFilters
    ∧ (queryDataStore ss (Except.error msg)).currentData = ss.currentData := by
  simp [componentGenerateChart, generateChartStore, queryDataStore, h]

/-- A store state with an active source, one active filter and one chart,
as a concrete input for C9. -/
def storeDraft : StoreState :=
  { hasActiveSource := true,
    activeFilters := [{ column := "age", operator := "gt", value := .str "30" }],
    charts := [{ chart_id := 1, chart_type := "line", figure := "fig",
                 config := { chart_type := "line" } }],
    error := none, loading := false, currentData := [["41"]], totalRows := 1 }

/-- Witness for C9 at a concrete store state and error message. -/
theorem collaborator_error_witness :
    (componentGenerateChart blankChart storeDraft (Except.error "Render failed")).1 = blankChart
    ∧ (componentGenerateChart blankChart storeDraft (Except.error "Render failed")).2.error
        = some "Render failed"
    ∧ (componentGenerateChart blankChart storeDraft (Except.error "Render failed")).2.charts
        = storeDraft.charts
    ∧ (componentGenerateChart blankChart storeDraft
        (Except.error "Render failed")).2.activeFilters = storeDraft.activeFilters
    ∧ (queryDataStore storeDraft (Except.error "Render failed")).error = some "Render failed"
    ∧ (queryDataStore storeDraft (Except.error "Render failed")).activeFilters
        = storeDraft.activeFilters
    ∧ (queryDataStore storeDraft (Except.error "Render failed")).currentData
        = storeDraft.currentData :=
  collaborator_error_preserves_state blankChart storeDraft "Render failed" rfl

/-- C10 (implicit): the `"numeric:"`-prefix color routing is applied for
EVERY chart type — whenever the stored color selection starts with the
prefix, the assembled config has `color_column = null` and
`options.color_numeric` equal to the remainder — and both switching the
chart type and applying a suggestion leave the color selection untouched,
so a numeric color chosen in scatter mode carries over into specs built for
other chart types. -/
theorem numeric_color_any_chart_type (s : ChartState) (r : String)
    (h : s.colorColumn = "numeric:" ++ r) :
    (generateChartConfig s).color_column = none
    ∧ (generateChartConfig s).options.color_numeric = some r
    ∧ (∀ t : String, (watchChartType s t).colorColumn = s.colorColumn)
    ∧ (∀ sug : ChartSuggestion, (applySuggestion s sug).colorColumn = s.colorColumn) := by
  have hc := generateChartConfig_color s
  rw [colorHandling_numeric s (baseConfig s) r h] at hc
  exact ⟨hc.1.trans rfl, hc.2.trans rfl, fun _ => rfl, fun _ => rfl⟩

/-- Witness for C10: a BAR state carrying the scatter-era selection
`numeric:score` still routes it into `options.color_numeric`. -/
theorem numeric_color_any_chart_type_witness :
    (generateChartConfig barNumericDraft).color_column = none
    ∧ (generateChartConfig barNumericDraft).options.color_numeric = some "score" :=
  ⟨(numeric_color_any_chart_type barNumericDraft "score" (by decide)).1,
   (numeric_color_any_chart_type barNumericDraft "score" (by decide)).2.1⟩

end DataViewer
